import Mathlib

/-!
Verification development for the course-outline-to-calendar backend.

This file gives a shallow embedding of the event data model
(`src/backend/models/event.py`), the calendar compiler
(`src/backend/services/ics_generator.py`), the validator and deduplication
layer (`src/backend/services/event_validator.py`) and the session flattening
operation (`src/backend/services/event_storage.py`), and proves the spec's
testable properties about them.

Conventions of the embedding:
* Python dictionaries carrying event data are embedded as the structure
  `EventDict` whose fields are `Option`-typed: `none` models an absent key
  (a key bound to Python `None` is conflated with an absent key, except for
  the `id` key where the distinction is load-bearing and is kept via
  `Option (Option String)`).
* Python `datetime` values are embedded as `DateTime` records of numeric
  components; comparison of (naive) datetimes is component-lexicographic,
  realized through the injective key `DateTime.toKey` (valid because all
  parsed components are range-checked by the parsers below).
* `datetime.fromisoformat` and `datetime.strptime` are external library
  calls; they are embedded as executable partial parsers covering the
  naive, zero-padded subset of inputs the repository exchanges
  (`YYYY-MM-DD`, optionally followed by `T` or a space and `HH:MM[:SS]`,
  without fractional seconds or UTC offsets). Inputs outside that subset
  fail to parse in the embedding.
* Fallible Python code (a `raise` caught by a caller) is embedded as
  `Option`/`Except` results.
-/

/-! ## Dates and datetimes -/

/-- A calendar date (`datetime.date`): year, month, day. -/
structure Date where
  year : Nat
  month : Nat
  day : Nat
deriving DecidableEq

/-- A naive `datetime.datetime`: date plus time-of-day components. -/
structure DateTime where
  year : Nat
  month : Nat
  day : Nat
  hour : Nat
  minute : Nat
  second : Nat
deriving DecidableEq

/-- The `date()` projection of a datetime. -/
def DateTime.date (d : DateTime) : Date :=
  ⟨d.year, d.month, d.day⟩

/-- Injective linearization of a datetime with in-range components
(`month ≤ 12 < 13`, `day ≤ 31 < 32`, `hour < 24`, `minute < 60`,
`second < 60`); on such values `toKey` comparison coincides with Python's
lexicographic comparison of naive datetimes. -/
def DateTime.toKey (d : DateTime) : Nat :=
  ((((d.year * 13 + d.month) * 32 + d.day) * 24 + d.hour) * 60 + d.minute) * 60 + d.second

/-- Python `dt1 <= dt2` on naive datetimes (both operands produced by the
range-checking parsers below). -/
def DateTime.pyLe (a b : DateTime) : Bool :=
  a.toKey ≤ b.toKey

/-- Linearization of a date with in-range components. -/
def Date.toKey (d : Date) : Nat :=
  (d.year * 13 + d.month) * 32 + d.day

/-- Python `d1 < d2` on dates (both operands produced by the range-checking
parsers below). -/
def Date.pyLt (a b : Date) : Bool :=
  a.toKey < b.toKey

/-- Leap-year test of the proleptic Gregorian calendar (as used by
`datetime`). -/
def isLeapYear (y : Nat) : Bool :=
  y % 4 = 0 && (y % 100 ≠ 0 || y % 400 = 0)

/-- Number of days in month `m` of year `y` (as validated by `datetime`). -/
def daysInMonth (y m : Nat) : Nat :=
  if m = 2 then (if isLeapYear y then 29 else 28)
  else if m = 4 ∨ m = 6 ∨ m = 9 ∨ m = 11 then 30
  else 31

/-- The numeric value of a decimal digit character, if it is one. -/
def digitVal (c : Char) : Option Nat :=
  if c.isDigit then some (c.toNat - 48) else none

/-- Two decimal digits as a number. -/
def num2 (a b : Char) : Option Nat := do
  pure ((← digitVal a) * 10 + (← digitVal b))

/-- Four decimal digits as a number. -/
def num4 (a b c d : Char) : Option Nat := do
  pure (((← digitVal a) * 10 + (← digitVal b)) * 100 + ((← digitVal c) * 10 + (← digitVal d)))

/-- A date from numeric components, validated the way `datetime.date`
validates its constructor arguments. -/
def mkValidDate (y mo da : Nat) : Option Date :=
  if 1 ≤ mo ∧ mo ≤ 12 ∧ 1 ≤ da ∧ da ≤ daysInMonth y mo then some ⟨y, mo, da⟩ else none

/-- Parse the character list of a zero-padded `YYYY-MM-DD` date. -/
def parseDateChars : List Char → Option Date
  | [y1, y2, y3, y4, '-', m1, m2, '-', d1, d2] => do
      mkValidDate (← num4 y1 y2 y3 y4) (← num2 m1 m2) (← num2 d1 d2)
  | _ => none

/-- Embeds `datetime.strptime(s, "%Y-%m-%d")` on zero-padded inputs (the only shape
the repository passes: recurrence `endDate` strings). Returns `none` where
the Python call raises `ValueError`. -/
def pyStrptimeDate (s : String) : Option Date :=
  parseDateChars s.toList

/-- Parse the character list of a time-of-day `HH:MM` or `HH:MM:SS`,
range-checked. -/
def parseTimeChars : List Char → Option (Nat × Nat × Nat)
  | [h1, h2, ':', m1, m2] => do
      let h ← num2 h1 h2
      let mi ← num2 m1 m2
      if h < 24 ∧ mi < 60 then some (h, mi, 0) else none
  | [h1, h2, ':', m1, m2, ':', s1, s2] => do
      let h ← num2 h1 h2
      let mi ← num2 m1 m2
      let se ← num2 s1 s2
      if h < 24 ∧ mi < 60 ∧ se < 60 then some (h, mi, se) else none
  | _ => none

/-- Embeds `datetime.fromisoformat` restricted to the naive subset exchanged by the
repository: `YYYY-MM-DD`, optionally followed by a `T` or space separator and
`HH:MM` or `HH:MM:SS` (no fractional seconds, no UTC offset). Returns `none`
where the Python call raises `ValueError`. -/
def pyFromIso (s : String) : Option DateTime :=
  let cs := s.toList
  match parseDateChars (cs.take 10) with
  | none => none
  | some d =>
    match cs.drop 10 with
    | [] => some ⟨d.year, d.month, d.day, 0, 0, 0⟩
    | sep :: timeCs =>
      if sep = 'T' ∨ sep = ' ' then
        (parseTimeChars timeCs).map (fun t => ⟨d.year, d.month, d.day, t.1, t.2.1, t.2.2⟩)
      else none

/-- Embeds `s.replace('Z', '+00:00')` as applied by the validator before parsing.
The pattern is the single character `Z`, so the replacement is a
per-character substitution. -/
def pyReplaceZ (s : String) : String :=
  String.mk ((s.toList.map (fun c => if c = 'Z' then "+00:00".toList else [c])).flatten)

/-- Python `str.lower()` (ASCII). -/
def pyLower (s : String) : String :=
  String.mk (s.toList.map Char.toLower)

/-- Python `str.upper()` (ASCII). -/
def pyUpper (s : String) : String :=
  String.mk (s.toList.map Char.toUpper)

/-- Python `str.strip()`: leading and trailing whitespace removed. -/
def pyStrip (s : String) : String :=
  String.mk (((s.toList.dropWhile Char.isWhitespace).reverse.dropWhile Char.isWhitespace).reverse)

/-- Embeds `date.toordinal()`: the proleptic Gregorian ordinal (day 1 = 0001-01-01),
used to take day differences the way Python date subtraction does. -/
def daysBeforeMonth (y m : Nat) : Nat :=
  (List.range (m - 1)).foldl (fun acc i => acc + daysInMonth y (i + 1)) 0

/-- See `daysBeforeMonth`. -/
def dateOrdinal (d : Date) : Nat :=
  365 * (d.year - 1) + (d.year - 1) / 4 - (d.year - 1) / 100 + (d.year - 1) / 400
    + daysBeforeMonth d.year d.month + d.day


/-! ## Event data model

`EventDict` embeds the event dictionaries flowing through the backend: the
`model_dump()` of a `CalendarEvent` (`src/backend/models/event.py`) or a
plain dictionary of the same shape (legacy `date`/`time` keys included for
the deduplication layer). -/

/-- A recurrence dictionary (shape of `RecurrenceRule.model_dump()` from
`src/backend/models/event.py`, or a raw recurrence dict). All fields are
optional keys, read via `.get` in the services. -/
structure Recurrence where
  frequency : Option String
  interval : Option Int
  daysOfWeek : Option (List Int)
  endDate : Option String
  count : Option Int
deriving DecidableEq

/-- An event dictionary. `id` is `Option (Option String)`: the outer layer
models key presence, the inner layer a Python `None` value — the default
`CalendarEvent` model shape serializes as `id = some none`. -/
structure EventDict where
  title : Option String
  startDateTime : Option String
  endDateTime : Option String
  location : Option String
  description : Option String
  type : Option String
  recurrence : Option Recurrence
  id : Option (Option String)
  date : Option String
  time : Option String
deriving DecidableEq

/-- Python truthiness of `event.get(key)` for a string-valued key:
falsy iff the key is absent (or `None`) or the string is empty. -/
def falsyOpt : Option String → Bool
  | none => true
  | some s => s = ""

/-- The closed `EventType` enumeration values of
`src/backend/models/event.py` (`lecture, exam, assignment, project,
office_hours, other`). -/
def eventTypeValues : List String :=
  ["lecture", "exam", "assignment", "project", "office_hours", "other"]

/-! ## ICS generator (`src/backend/services/ics_generator.py`)

The `icalendar` library objects are embedded structurally: an RRULE is the
association list of its clauses in insertion order, an event the record of
the properties `_create_event` adds to it. -/

/-- A value stored in an RRULE clause. -/
inductive RVal where
  | strs (vals : List String)
  | ints (vals : List Int)
  | dts (vals : List (DateTime × String))
deriving DecidableEq

/-- A VALARM component as built by `ICSGenerator._create_alarm`: action,
trigger offset (a `timedelta`, in minutes, negative = before the event) and
display description. -/
structure Alarm where
  action : String
  triggerMinutes : Int
  description : String
deriving DecidableEq

/-- A VEVENT component as built by `ICSGenerator._create_event`.
`dtstart`/`dtend` carry the parsed timestamp localized to the generator's
timezone (the repository only exchanges naive timestamps, so the
`tzinfo is None` branch always localizes). `uid` is the raw Python value
passed to `event.add('uid', ...)` — `none` embeds Python `None`. -/
structure ICalEvent where
  summary : String
  uid : Option String
  dtstart : DateTime × String
  dtend : DateTime × String
  location : String
  description : Option String
  categories : List String
  rrule : Option (List (String × RVal))
  alarms : List Alarm
deriving DecidableEq

/-- A VCALENDAR document as built by `ICSGenerator.generate_ics`. -/
structure CalendarDoc where
  prodid : String
  version : String
  calname : String
  timezone : String
  events : List ICalEvent
deriving DecidableEq

namespace ICSGenerator

/-- The `freq_map` of `_create_recurrence_rule`, with its
`.get(frequency, 'WEEKLY')` fallback. -/
def freqToken (frequency : String) : String :=
  if frequency = "daily" then "DAILY"
  else if frequency = "weekly" then "WEEKLY"
  else if frequency = "monthly" then "MONTHLY"
  else "WEEKLY"

/-- The list `days_map = ['SU', 'MO', 'TU', 'WE', 'TH', 'FR', 'SA']`. -/
def daysMap : List String := ["SU", "MO", "TU", "WE", "TH", "FR", "SA"]

/-- Python list indexing `days_map[day]` including negative indices;
`none` where Python raises `IndexError`. -/
def pyIndex (l : List String) (i : Int) : Option String :=
  if h : 0 ≤ i ∧ i.toNat < l.length then some (l.get ⟨i.toNat, h.2⟩)
  else if 0 ≤ i + l.length ∧ i < 0 then some (l.getD (i + l.length).toNat "")
  else none

/-- The `FREQ` and `INTERVAL` clauses of `_create_recurrence_rule`
(`rule['FREQ']` always; `rule['INTERVAL']` under the truthiness of
`recurrence.get('interval')`, i.e. present and nonzero). -/
def ruleBase (r : Recurrence) : List (String × RVal) :=
  [("FREQ", RVal.strs [freqToken (pyLower (r.frequency.getD "weekly"))])]
    ++ (match r.interval with
        | some i => if i ≠ 0 then [("INTERVAL", RVal.ints [i])] else []
        | none => [])

/-- The `UNTIL` clause of `_create_recurrence_rule`: under the truthiness of
`recurrence.get('endDate')`, `strptime` the date (propagating its
`ValueError` as `none`), set the time to 23:59 and localize to the
generator's timezone. -/
def untilEntries (tz : String) (r : Recurrence) : Option (List (String × RVal)) :=
  match r.endDate with
  | some s =>
      if s = "" then some []
      else (pyStrptimeDate s).map
        (fun d => [("UNTIL", RVal.dts [(⟨d.year, d.month, d.day, 23, 59, 0⟩, tz)])])
  | none => some []

/-- The `BYDAY` clause of `_create_recurrence_rule`: under the truthiness of
`recurrence.get('daysOfWeek')`, map each day through `days_map`
(propagating an `IndexError` as `none`). -/
def bydayEntries (r : Recurrence) : Option (List (String × RVal)) :=
  match r.daysOfWeek with
  | some l =>
      if l = [] then some []
      else (l.mapM (pyIndex daysMap)).map (fun toks => [("BYDAY", RVal.strs toks)])
  | none => some []

/-- Embeds `ICSGenerator._create_recurrence_rule`: the RRULE association list in
insertion order `FREQ, INTERVAL?, UNTIL?, BYDAY?`; `none` where the Python
body raises (in `strptime` of `endDate` or in `days_map[day]`). -/
def _create_recurrence_rule (tz : String) (r : Recurrence) : Option (List (String × RVal)) :=
  match untilEntries tz r, bydayEntries r with
  | some u, some b => some (ruleBase r ++ u ++ b)
  | _, _ => none

/-- The `reminder_config` lookup of `ICSGenerator._create_alarm`, with its
fallback to the `other` entry. Offsets are in minutes. -/
def _create_alarm (event_type : String) : Alarm :=
  if event_type = "exam" then ⟨"DISPLAY", -1440, "Exam tomorrow!"⟩
  else if event_type = "assignment" then ⟨"DISPLAY", -2880, "Assignment due in 2 days"⟩
  else if event_type = "lecture" then ⟨"DISPLAY", -30, "Class starts in 30 minutes"⟩
  else if event_type = "project" then ⟨"DISPLAY", -4320, "Project deadline in 3 days"⟩
  else ⟨"DISPLAY", -60, "Event starting soon"⟩

/-- Embeds `ICSGenerator._create_event`. `genUid` is the `uuid.uuid4()` string that
`_generate_uid` would produce for this call. Returns `none` where the Python
body raises (missing `title`/`startDateTime`/`endDateTime`/`location` key,
unparsable timestamp, or a raising `_create_recurrence_rule`); the caller
catches that exception. Note `event_data.get('id', ...)`: the generated UID
is used only when the `id` key is absent — a key bound to `None` is passed
through as the UID value. -/
def _create_event (tz : String) (genUid : String) (e : EventDict) : Option ICalEvent :=
  match e.title, e.startDateTime, e.endDateTime, e.location with
  | some title, some ss, some es, some loc =>
    match pyFromIso ss, pyFromIso es with
    | some sdt, some edt =>
      let uid : Option String :=
        match e.id with
        | none => some genUid
        | some v => v
      let event_type := e.type.getD "other"
      let base : ICalEvent :=
        { summary := title
          uid := uid
          dtstart := (sdt, tz)
          dtend := (edt, tz)
          location := loc
          description := if falsyOpt e.description then none else e.description
          categories := [pyUpper event_type]
          rrule := none
          alarms := [] }
      match e.recurrence with
      | some r =>
        match _create_recurrence_rule tz r with
        | some rule => some { base with rrule := some rule }
        | none => none
      | none => some { base with alarms := [_create_alarm event_type] }
    | _, _ => none
  | _, _, _, _ => none

/-- The event loop of `generate_ics`: each event is encoded with a fresh
UID supply index; a raising `_create_event` is logged and skipped. -/
def addEvents (tz : String) (fresh : Nat → String) : Nat → List EventDict → List ICalEvent
  | _, [] => []
  | i, e :: rest =>
    match _create_event tz (fresh i) e with
    | some ev => ev :: addEvents tz fresh (i + 1) rest
    | none => addEvents tz fresh (i + 1) rest

/-- Embeds `ICSGenerator.generate_ics`: raises `ValueError` on an empty list,
otherwise builds the calendar document and adds each event, skipping the
ones whose encoding raises. `fresh` supplies the `uuid.uuid4()` strings. -/
def generate_ics (tz : String) (fresh : Nat → String) (events : List EventDict)
    (calendar_name : String) : Except String CalendarDoc :=
  if events.isEmpty then
    Except.error "Cannot generate calendar from empty events list"
  else
    Except.ok { prodid := "-//Course Outline to Calendar//EN"
                version := "2.0"
                calname := calendar_name
                timezone := tz
                events := addEvents tz fresh 0 events }

end ICSGenerator

/-! ## Event validator (`src/backend/services/event_validator.py`)

The embedding covers the modern-shape path of `EventValidator.validate_event`
(`is_new_format = 'startDateTime' in event_data`): required-field check,
title, `startDateTime`, `endDateTime`, location (required), type, recurrence,
and the temporal-distance warnings. The legacy `date`/`time`/`duration`
branch is not modelled — no claim concerns it. Errors and warnings are
`(field, message)` pairs accumulated in source order. The
`isinstance(..., str)` guards are unrepresentable in the typed embedding
(string-valued keys are typed `Option String`) and therefore never fire. -/

namespace EventValidator

/-- The set `VALID_EVENT_TYPES = {'lecture', 'exam', 'assignment', 'project',
'other'}` (line 64 of `event_validator.py`). Note: unlike the shared
`EventType` enumeration of `models/event.py`, this set does not contain
`office_hours`. -/
def VALID_EVENT_TYPES : List String :=
  ["lecture", "exam", "assignment", "project", "other"]

/-- Python `str.capitalize()` (ASCII): first character upper-cased, the rest
lower-cased — e.g. `'startDateTime'.capitalize() = 'Startdatetime'`. -/
def pyCapitalize (s : String) : String :=
  match s.toList with
  | [] => ""
  | c :: cs => String.mk (c.toUpper :: cs.map Char.toLower)

/-- The modern-shape required-field list of `_validate_required_fields`
(`is_new_format` branch). -/
def requiredModernFields : List String :=
  ["title", "startDateTime", "endDateTime", "location"]

/-- Embeds `event_data[field]` for the string-valued keys the validator reads. -/
def getField (e : EventDict) : String → Option String
  | "title" => e.title
  | "startDateTime" => e.startDateTime
  | "endDateTime" => e.endDateTime
  | "location" => e.location
  | "description" => e.description
  | "type" => e.type
  | "date" => e.date
  | "time" => e.time
  | _ => none

/-- Embeds `_validate_required_fields` (modern shape): an error per required field
that is missing or falsy, message `f'{field.capitalize()} is required'`.
The loop over `requiredModernFields` is unrolled; the messages are the
values of `f'{field.capitalize()} is required'` (see `pyCapitalize`). -/
def requiredFieldErrors (e : EventDict) : List (String × String) :=
  (if falsyOpt e.title then [("title", "Title is required")] else [])
    ++ (if falsyOpt e.startDateTime then [("startDateTime", "Startdatetime is required")] else [])
    ++ (if falsyOpt e.endDateTime then [("endDateTime", "Enddatetime is required")] else [])
    ++ (if falsyOpt e.location then [("location", "Location is required")] else [])

/-- Embeds `_validate_title` (errors): absent key skipped; trimmed length below 3
rejected. -/
def titleErrors (e : EventDict) : List (String × String) :=
  match e.title with
  | none => []
  | some t => if (pyStrip t).length < 3 then [("title", "Title must be at least 3 characters")] else []

/-- Embeds `_validate_title` (warnings): length above 200 warned. -/
def titleWarnings (e : EventDict) : List (String × String) :=
  match e.title with
  | none => []
  | some t => if t.length > 200 then [("title", "Title exceeds 200 characters, may be truncated")] else []

/-- The `_parsed_start_dt` entry `_validate_start_datetime` stores into the
event dictionary on success, threaded functionally. -/
def parsedStart (e : EventDict) : Option DateTime :=
  e.startDateTime.bind (fun s => pyFromIso (pyReplaceZ s))

/-- Embeds `_validate_start_datetime` (errors). -/
def startErrors (e : EventDict) : List (String × String) :=
  match e.startDateTime with
  | none => []
  | some s =>
    match pyFromIso (pyReplaceZ s) with
    | some _ => []
    | none => [("startDateTime", "Start datetime must be in ISO 8601 format (YYYY-MM-DDTHH:MM:SS)")]

/-- Embeds `_validate_end_datetime` (errors): format error on an unparsable value;
otherwise, when `_parsed_start_dt` is available, `end_dt <= start_dt` is
rejected. -/
def endErrors (e : EventDict) : List (String × String) :=
  match e.endDateTime with
  | none => []
  | some s =>
    match pyFromIso (pyReplaceZ s) with
    | some edt =>
      match parsedStart e with
      | some sdt =>
        if edt.pyLe sdt then [("endDateTime", "End datetime must be after start datetime")] else []
      | none => []
    | none => [("endDateTime", "End datetime must be in ISO 8601 format (YYYY-MM-DDTHH:MM:SS)")]

/-- Embeds `_validate_location` with `required=True` (modern shape). -/
def locationErrors (e : EventDict) : List (String × String) :=
  if falsyOpt e.location then [("location", "Location is required")] else []

/-- The message of `_validate_type`'s error. Python joins the set
`VALID_EVENT_TYPES` in unspecified set-iteration order; source order is used
here. -/
def invalidTypeMsg : String :=
  "Invalid event type. Must be one of: lecture, exam, assignment, project, other"

/-- Embeds `_validate_type`: absent key skipped; membership in
`VALID_EVENT_TYPES` required. -/
def typeErrors (e : EventDict) : List (String × String) :=
  match e.type with
  | none => []
  | some t => if t ∈ VALID_EVENT_TYPES then [] else [("type", invalidTypeMsg)]

/-- The regex `^\d{4}-\d{2}-\d{2}$` (`DATE_PATTERN`). -/
def matchesDatePattern (s : String) : Bool :=
  match s.toList with
  | [a, b, c, d, '-', e, f, '-', g, h] =>
    a.isDigit && b.isDigit && c.isDigit && d.isDigit && e.isDigit && f.isDigit
      && g.isDigit && h.isDigit
  | _ => false

/-- Embeds `_validate_recurrence` (modern shape, errors): closed frequency set,
positive interval, well-formed `endDate` not earlier than the event's start
date, `daysOfWeek` entries in `[0, 6]`. -/
def recurrenceErrors (ps : Option DateTime) (r : Recurrence) : List (String × String) :=
  (if (pyLower (r.frequency.getD "")) ∈ (["daily", "weekly", "monthly"] : List String) then []
   else [("recurrence.frequency", "Invalid frequency. Must be one of: daily, weekly, monthly")])
  ++ (if r.interval.getD 1 < 1 then
        [("recurrence.interval", "Interval must be a positive integer")] else [])
  ++ (match r.endDate with
      | some s =>
        if s = "" then []
        else if ¬ matchesDatePattern s then
          [("recurrence.endDate", "End date must be in YYYY-MM-DD format")]
        else
          match pyStrptimeDate s with
          | some endDate =>
            (match ps with
             | some sdt =>
               if endDate.pyLt sdt.date then
                 [("recurrence.endDate", "End date must be after start date")]
               else []
             | none => [])
          | none => [("recurrence.endDate", "Invalid end date value")]
      | none => [])
  ++ (match r.daysOfWeek with
      | some l =>
        if l = [] then []
        else if l.all (fun d => 0 ≤ d ∧ d ≤ 6) then []
        else [("recurrence.daysOfWeek", "Days of week must be integers between 0 and 6")]
      | none => [])

/-- Embeds `_validate_date_not_too_far_past` (modern shape): start more than 365
days before `today` warned. -/
def pastWarnings (today : Date) (e : EventDict) : List (String × String) :=
  match parsedStart e with
  | none => []
  | some sdt =>
    let daysAgo : Int := (dateOrdinal today : Int) - (dateOrdinal sdt.date : Int)
    if daysAgo > 365 then [("startDateTime", s!"Event is {daysAgo} days in the past")] else []

/-- Embeds `_validate_date_not_too_far_future` (modern shape): start more than 730
days after `today` warned. -/
def futureWarnings (today : Date) (e : EventDict) : List (String × String) :=
  match parsedStart e with
  | none => []
  | some sdt =>
    let daysAhead : Int := (dateOrdinal sdt.date : Int) - (dateOrdinal today : Int)
    if daysAhead > 730 then [("startDateTime", s!"Event is {daysAhead} days in the future")] else []

/-- The result of `EventValidator.validate_event`: accumulated errors and
warnings; `is_valid` is falsified exactly by `add_error`. -/
structure ValidationResult where
  errors : List (String × String)
  warnings : List (String × String)
deriving DecidableEq

/-- The `is_valid` flag of a `ValidationResult`. -/
def ValidationResult.is_valid (r : ValidationResult) : Bool :=
  r.errors.isEmpty

/-- Embeds `EventValidator.validate_event`, modern-shape path (the branch taken
when `startDateTime` is a key of the event), accumulating errors and
warnings in source order. `today` stands for `date.today()`. -/
def validate_event (today : Date) (e : EventDict) : ValidationResult :=
  { errors :=
      requiredFieldErrors e ++ titleErrors e ++ startErrors e ++ endErrors e
        ++ locationErrors e ++ typeErrors e
        ++ (match e.recurrence with
            | some r => recurrenceErrors (parsedStart e) r
            | none => [])
    warnings := titleWarnings e ++ pastWarnings today e ++ futureWarnings today e }

/-! ### Deduplication -/

/-- The per-event signature of `deduplicate`: new-format events use
`(title, startDateTime, endDateTime, type)`, legacy events
`(title, date, time, type)`; the title is lower-cased and trimmed with a
`''` default. -/
def dedupSig (e : EventDict) : String × Option String × Option String × Option String :=
  if e.startDateTime.isSome then
    (pyStrip (pyLower (e.title.getD "")), e.startDateTime, e.endDateTime, e.type)
  else
    (pyStrip (pyLower (e.title.getD "")), e.date, e.time, e.type)

/-- The signature of the tuple-returning deduplication variant: always the
legacy `(title, date, time, type)` quadruple. -/
def oldSig (e : EventDict) : String × Option String × Option String × Option String :=
  (pyStrip (pyLower (e.title.getD "")), e.date, e.time, e.type)

/-- The loop of `deduplicate`: `seen` is the set of signatures encountered
so far; the first occurrence of each signature is kept. -/
def dedupGo (seen : List (String × Option String × Option String × Option String)) :
    List EventDict → List EventDict
  | [] => []
  | e :: rest =>
    let s := dedupSig e
    if s ∈ seen then dedupGo seen rest
    else e :: dedupGo (s :: seen) rest

/-- Embeds `deduplicate` (format-aware variant returning the unique events,
first occurrences preserved in order). -/
def deduplicate (events : List EventDict) : List EventDict :=
  dedupGo [] events

/-- The loop of the tuple-returning deduplication variant: later occurrences
of a seen signature are appended to the `duplicates` list instead. -/
def dedupTupleGo (seen : List (String × Option String × Option String × Option String)) :
    List EventDict → List EventDict × List EventDict
  | [] => ([], [])
  | e :: rest =>
    let s := oldSig e
    if s ∈ seen then
      let p := dedupTupleGo seen rest
      (p.1, e :: p.2)
    else
      let p := dedupTupleGo (s :: seen) rest
      (e :: p.1, p.2)

/-- The tuple-returning `deduplicate` variant: `(unique_events, duplicates)`
with first occurrences kept and later ones reported. -/
def deduplicate_with_duplicates (events : List EventDict) :
    List EventDict × List EventDict :=
  dedupTupleGo [] events

end EventValidator

/-! ## Session aggregation

`CourseCalendar` and `MultiCourseCalendar` are imported throughout the
backend from `models.event` but their class bodies are absent from `src/`;
they are modelled from the spec below. `EventStorage.get_all_events_in_session`
(`src/backend/services/event_storage.py`, lines 123–137) is embedded from
the source on top of them. -/

/-- Modelled from the spec: class `CourseCalendar` (imported from
`models.event`, body missing from `src/`) — "groups a `course_code`,
`course_name` … and an ordered sequence of CalendarEvents". -/
structure CourseCalendar where
  course_code : String
  course_name : String
  events : List EventDict
deriving DecidableEq

/-- Modelled from the spec: class `MultiCourseCalendar` (imported from
`models.event`, body missing from `src/`) — "an ordered sequence of
CourseCalendar, representing one user's upload session". -/
structure MultiCourseCalendar where
  courses : List CourseCalendar
deriving DecidableEq

/-- Modelled from the spec: `MultiCourseCalendar.add_course` (called by
`EventStorage.add_course_to_session`) — appends in course-addition order. -/
def MultiCourseCalendar.add_course (m : MultiCourseCalendar) (c : CourseCalendar) :
    MultiCourseCalendar :=
  ⟨m.courses ++ [c]⟩

/-- Modelled from the spec: `MultiCourseCalendar.get_all_events` — "a
flattening operation producing one combined sequence of all events across
all courses, preserving per-course ordering and concatenation order by
course-addition order". -/
def MultiCourseCalendar.get_all_events (m : MultiCourseCalendar) : List EventDict :=
  (m.courses.map CourseCalendar.events).flatten

/-- Embeds `EventStorage.get_all_events_in_session`: the session store is a map
from session id to `MultiCourseCalendar`; an unknown session yields `[]`. -/
def EventStorage.get_all_events_in_session
    (sessions : String → Option MultiCourseCalendar) (session_id : String) :
    List EventDict :=
  match sessions session_id with
  | none => []
  | some m => m.get_all_events

/-! ## Concrete sample data used by the instance theorems -/

/-- A well-formed one-time modern-shape event (plain dictionary, no `id`
key). -/
def evValid : EventDict :=
  { title := some "CS301 Lecture"
    startDateTime := some "2026-01-20T14:00:00"
    endDateTime := some "2026-01-20T15:20:00"
    location := some "Room 101"
    description := none
    type := some "lecture"
    recurrence := none
    id := none
    date := none
    time := none }

/-- An event whose `startDateTime` does not parse: encoding it raises inside
`_create_event`. -/
def evBadTimestamp : EventDict :=
  { title := some "Midterm Exam"
    startDateTime := some "not-a-date"
    endDateTime := some "2026-03-01T12:00:00"
    location := some "Exam Hall"
    description := none
    type := some "exam"
    recurrence := none
    id := none
    date := none
    time := none }

/-- The spec's §8 example: a weekly recurring lecture with `daysOfWeek`
Monday/Wednesday and an `endDate`, plus a `count` to exercise the
termination-clause precedence. -/
def evRecurring : EventDict :=
  { evValid with
    recurrence := some
      { frequency := some "weekly"
        interval := some 1
        daysOfWeek := some [1, 3]
        endDate := some "2026-04-30"
        count := some 10 } }

/-- The default `CalendarEvent.model_dump()` shape: the `id` key is present
and bound to `None`. -/
def evDefaultModelShape : EventDict :=
  { evValid with id := some none }

/-- The same event with an explicit `id` value. -/
def evWithId : EventDict :=
  { evValid with id := some (some "evt-123") }

/-- A modern-shape event of type `office_hours` (a declared `EventType`
enumeration value). -/
def evOfficeHours : EventDict :=
  { title := some "Office Hours"
    startDateTime := some "2026-01-21T10:00:00"
    endDateTime := some "2026-01-21T11:00:00"
    location := some "MC 2062"
    description := none
    type := some "office_hours"
    recurrence := none
    id := some none
    date := none
    time := none }

/-- Duplicate pair: identical deduplication signature, different
descriptions. -/
def evDupA : EventDict :=
  { evValid with description := some "first version" }

/-- See `evDupA`. -/
def evDupB : EventDict :=
  { evValid with description := some "second version, different text" }

/-- A fixed reference value for `date.today()` in instance theorems. -/
def today0 : Date := ⟨2026, 10, 12⟩

/-- The recurrence of the spec's §8 example, extended with a `count` to
exercise termination-clause precedence. -/
def rec0 : Recurrence :=
  { frequency := some "weekly"
    interval := some 1
    daysOfWeek := some [1, 3]
    endDate := some "2026-04-30"
    count := some 10 }

/-- The RRULE the encoder produces for `rec0`. -/
def recRule0 : List (String × RVal) :=
  [("FREQ", RVal.strs ["WEEKLY"]),
   ("INTERVAL", RVal.ints [1]),
   ("UNTIL", RVal.dts [(⟨2026, 4, 30, 23, 59, 0⟩, "America/Toronto")]),
   ("BYDAY", RVal.strs ["MO", "WE"])]

/-- A recurrence carrying only a `count` (no `endDate`). -/
def recCountOnly : Recurrence :=
  { frequency := some "daily"
    interval := none
    daysOfWeek := none
    endDate := none
    count := some 5 }

/-- The RRULE the encoder produces for `recCountOnly`. -/
def countRule0 : List (String × RVal) :=
  [("FREQ", RVal.strs ["DAILY"])]

/-- The VEVENT produced for `evRecurring` (UID supply `"u0"`). -/
def evRecurringICal : ICalEvent :=
  { summary := "CS301 Lecture"
    uid := some "u0"
    dtstart := (⟨2026, 1, 20, 14, 0, 0⟩, "America/Toronto")
    dtend := (⟨2026, 1, 20, 15, 20, 0⟩, "America/Toronto")
    location := "Room 101"
    description := none
    categories := ["LECTURE"]
    rrule := some recRule0
    alarms := [] }

/-- The VEVENT produced for `evValid` (UID supply `"u1"`). -/
def evValidICal : ICalEvent :=
  { summary := "CS301 Lecture"
    uid := some "u1"
    dtstart := (⟨2026, 1, 20, 14, 0, 0⟩, "America/Toronto")
    dtend := (⟨2026, 1, 20, 15, 20, 0⟩, "America/Toronto")
    location := "Room 101"
    description := none
    categories := ["LECTURE"]
    rrule := none
    alarms := [⟨"DISPLAY", -30, "Class starts in 30 minutes"⟩] }

/-- A modern-shape event whose `endDateTime` equals its `startDateTime`. -/
def evEndEqStart : EventDict :=
  { evValid with endDateTime := some "2026-01-20T14:00:00" }

/-- A modern-shape event with an empty `location` and missing `title`. -/
def evMissingFields : EventDict :=
  { title := none
    startDateTime := some "2026-01-20T14:00:00"
    endDateTime := some "2026-01-20T15:20:00"
    location := some ""
    description := none
    type := none
    recurrence := none
    id := none
    date := none
    time := none }

/-- Five pairwise-distinct sample events. -/
def ev1 : EventDict := { evValid with title := some "CS301 Lecture 1" }

/-- See `ev1`. -/
def ev2 : EventDict := { evValid with title := some "CS301 Lecture 2" }
/-- See `ev1`. -/
def ev3 : EventDict := { evValid with title := some "CS301 Midterm" }

/-- See `ev1`. -/
def ev4 : EventDict := { evValid with title := some "MATH205 Lecture" }
/-- See `ev1`. -/
def ev5 : EventDict := { evValid with title := some "MATH205 Final" }

/-- A course with three events. -/
def course1 : CourseCalendar := ⟨"CS301", "Data Structures", [ev1, ev2, ev3]⟩

/-- A course with two events. -/
def course2 : CourseCalendar := ⟨"MATH205", "Calculus II", [ev4, ev5]⟩


/-! ## Helper lemmas about the recurrence encoder -/

lemma mem_ruleBase {r : Recurrence} {p : String × RVal} (h : p ∈ ICSGenerator.ruleBase r) :
    p.1 = "FREQ" ∨ p.1 = "INTERVAL" := by
  unfold ICSGenerator.ruleBase at h
  rcases List.mem_append.mp h with h | h
  · simp only [List.mem_singleton] at h
    left; rw [h]
  · cases hi : r.interval with
    | none => rw [hi] at h; simp at h
    | some i =>
      rw [hi] at h
      dsimp only at h
      by_cases hz : i ≠ 0
      · rw [if_pos hz] at h
        simp only [List.mem_singleton] at h
        right; rw [h]
      · rw [if_neg hz] at h; simp at h

lemma untilEntries_shape {tz : String} {r : Recurrence} {u : List (String × RVal)}
    (h : ICSGenerator.untilEntries tz r = some u) :
    u = [] ∨ ∃ d : Date, u = [("UNTIL", RVal.dts [(⟨d.year, d.month, d.day, 23, 59, 0⟩, tz)])] := by
  unfold ICSGenerator.untilEntries at h
  cases he : r.endDate with
  | none => rw [he] at h; injection h with h; exact Or.inl h.symm
  | some s =>
    rw [he] at h
    dsimp only at h
    by_cases hz : s = ""
    · rw [if_pos hz] at h; injection h with h; exact Or.inl h.symm
    · rw [if_neg hz] at h
      rcases Option.map_eq_some'.mp h with ⟨d, _, rfl⟩
      exact Or.inr ⟨d, rfl⟩

lemma bydayEntries_shape {r : Recurrence} {b : List (String × RVal)}
    (h : ICSGenerator.bydayEntries r = some b) :
    b = [] ∨ ∃ toks, b = [("BYDAY", RVal.strs toks)] := by
  unfold ICSGenerator.bydayEntries at h
  cases hd : r.daysOfWeek with
  | none => rw [hd] at h; injection h with h; exact Or.inl h.symm
  | some l =>
    rw [hd] at h
    dsimp only at h
    by_cases hz : l = []
    · rw [if_pos hz] at h; injection h with h; exact Or.inl h.symm
    · rw [if_neg hz] at h
      rcases Option.map_eq_some'.mp h with ⟨toks, _, rfl⟩
      exact Or.inr ⟨toks, rfl⟩

lemma create_rule_destruct {tz : String} {r : Recurrence} {rule : List (String × RVal)}
    (h : ICSGenerator._create_recurrence_rule tz r = some rule) :
    ∃ u b, ICSGenerator.untilEntries tz r = some u ∧ ICSGenerator.bydayEntries r = some b
      ∧ rule = ICSGenerator.ruleBase r ++ u ++ b := by
  unfold ICSGenerator._create_recurrence_rule at h
  cases hu : ICSGenerator.untilEntries tz r with
  | none => rw [hu] at h; cases h
  | some u =>
    cases hb : ICSGenerator.bydayEntries r with
    | none => rw [hu, hb] at h; cases h
    | some b =>
      rw [hu, hb] at h
      injection h with h
      exact ⟨u, b, rfl, rfl, h.symm⟩

lemma create_rule_keys {tz : String} {r : Recurrence} {rule : List (String × RVal)}
    (h : ICSGenerator._create_recurrence_rule tz r = some rule) {p : String × RVal}
    (hp : p ∈ rule) :
    p.1 = "FREQ" ∨ p.1 = "INTERVAL" ∨ p.1 = "UNTIL" ∨ p.1 = "BYDAY" := by
  rcases create_rule_destruct h with ⟨u, b, hu, hb, rfl⟩
  rcases List.mem_append.mp hp with hp' | hp'
  · rcases List.mem_append.mp hp' with hp'' | hp''
    · rcases mem_ruleBase hp'' with h1 | h1
      · exact Or.inl h1
      · exact Or.inr (Or.inl h1)
    · rcases untilEntries_shape hu with rfl | ⟨d, rfl⟩
      · simp at hp''
      · simp only [List.mem_singleton] at hp''
        exact Or.inr (Or.inr (Or.inl (by rw [hp''])))
  · rcases bydayEntries_shape hb with rfl | ⟨toks, rfl⟩
    · simp at hp'
    · simp only [List.mem_singleton] at hp'
      exact Or.inr (Or.inr (Or.inr (by rw [hp'])))

lemma untilEntries_of_falsy {tz : String} {r : Recurrence} (h : falsyOpt r.endDate = true) :
    ICSGenerator.untilEntries tz r = some [] := by
  unfold ICSGenerator.untilEntries
  cases he : r.endDate with
  | none => rfl
  | some s =>
    rw [he] at h
    simp only [falsyOpt, decide_eq_true_eq] at h
    dsimp only
    rw [if_pos h]

lemma untilEntries_of_parsed {tz : String} {r : Recurrence} {s : String} {d : Date}
    (he : r.endDate = some s) (hz : s ≠ "") (hd : pyStrptimeDate s = some d) :
    ICSGenerator.untilEntries tz r
      = some [("UNTIL", RVal.dts [(⟨d.year, d.month, d.day, 23, 59, 0⟩, tz)])] := by
  unfold ICSGenerator.untilEntries
  rw [he]
  dsimp only
  rw [if_neg hz, hd]
  rfl

/-! ## Claim theorems for the recurrence encoder -/

/-- C6: for every recurrence rule with a (parseable, non-empty) `endDate`,
the encoder emits the termination bound as an `UNTIL` clause holding that
date at end-of-day (23:59) localized to the active timezone, and — whatever
the rule's `count` is — no `COUNT` clause is emitted, so `endDate` takes
precedence over `count`. -/
theorem until_is_end_of_day_and_count_never_emitted :
    ∀ (tz : String) (r : Recurrence) (s : String) (d : Date) (rule : List (String × RVal)),
      r.endDate = some s → s ≠ "" → pyStrptimeDate s = some d →
      ICSGenerator._create_recurrence_rule tz r = some rule →
      ("UNTIL", RVal.dts [(⟨d.year, d.month, d.day, 23, 59, 0⟩, tz)]) ∈ rule
        ∧ ∀ v, ("COUNT", v) ∉ rule := by
  intro tz r s d rule he hz hd h
  constructor
  · rcases create_rule_destruct h with ⟨u, b, hu, hb, rfl⟩
    rw [untilEntries_of_parsed he hz hd] at hu
    injection hu with hu
    subst hu
    exact List.mem_append.mpr (Or.inl (List.mem_append.mpr (Or.inr (by simp))))
  · intro v hv
    rcases create_rule_keys h hv with h1 | h1 | h1 | h1 <;> simp at h1

/-- Witness for C6 at `rec0` (both `endDate` and `count` present). -/
theorem until_is_end_of_day_and_count_never_emitted_witness :
    ("UNTIL", RVal.dts [(⟨2026, 4, 30, 23, 59, 0⟩, "America/Toronto")]) ∈ recRule0
      ∧ ∀ v, ("COUNT", v) ∉ recRule0 :=
  until_is_end_of_day_and_count_never_emitted "America/Toronto" rec0 "2026-04-30"
    ⟨2026, 4, 30⟩ recRule0 rfl (by decide) (by decide) (by decide)

/-- C10: the encoder's output repeat rule never contains a `COUNT` clause,
and a rule without a (truthy) `endDate` is encoded with no `UNTIL` clause
either — no termination bound at all, even when `count` is present. -/
theorem rrule_never_contains_count :
    ∀ (tz : String) (r : Recurrence) (rule : List (String × RVal)),
      ICSGenerator._create_recurrence_rule tz r = some rule →
      (∀ v, ("COUNT", v) ∉ rule)
        ∧ (falsyOpt r.endDate = true → ∀ v, ("UNTIL", v) ∉ rule) := by
  intro tz r rule h
  constructor
  · intro v hv
    rcases create_rule_keys h hv with h1 | h1 | h1 | h1 <;> simp at h1
  · intro hf v hv
    rcases create_rule_destruct h with ⟨u, b, hu, hb, rfl⟩
    rw [untilEntries_of_falsy hf] at hu
    injection hu with hu
    subst hu
    rcases List.mem_append.mp hv with hv' | hv'
    · rcases List.mem_append.mp hv' with hv'' | hv''
      · rcases mem_ruleBase hv'' with h1 | h1 <;> simp at h1
      · simp at hv''
    · rcases bydayEntries_shape hb with rfl | ⟨toks, rfl⟩
      · simp at hv'
      · simp only [List.mem_singleton] at hv'
        simp at hv'

/-- Witness for C10 at `recCountOnly`: neither `COUNT` nor `UNTIL` appears. -/
theorem rrule_never_contains_count_witness :
    (∀ v, ("COUNT", v) ∉ countRule0) ∧ (∀ v, ("UNTIL", v) ∉ countRule0) :=
  ⟨(rrule_never_contains_count "America/Toronto" recCountOnly countRule0 (by decide)).1,
   (rrule_never_contains_count "America/Toronto" recCountOnly countRule0 (by decide)).2 (by decide)⟩

/-! ## Helper lemmas about the event compiler -/

lemma create_event_rrule_alarms {tz u : String} {e : EventDict} {v : ICalEvent}
    (h : ICSGenerator._create_event tz u e = some v) :
    v.rrule.isSome = e.recurrence.isSome
      ∧ v.alarms = (if e.recurrence.isSome then []
          else [ICSGenerator._create_alarm (e.type.getD "other")]) := by
  unfold ICSGenerator._create_event at h
  cases ht : e.title <;> rw [ht] at h
  case none => cases h
  cases hs : e.startDateTime <;> rw [hs] at h
  case none => cases h
  cases hee : e.endDateTime <;> rw [hee] at h
  case none => cases h
  cases hl : e.location <;> rw [hl] at h
  case none => cases h
  dsimp only at h
  cases hps : pyFromIso _ <;> rw [hps] at h
  case none => cases h
  cases hpe : pyFromIso _ <;> rw [hpe] at h
  case none => cases h
  dsimp only at h
  cases hr : e.recurrence <;> rw [hr] at h <;> dsimp only at h
  case none =>
    injection h with h
    subst h
    simp
  case some r =>
    cases hcr : ICSGenerator._create_recurrence_rule tz r <;> rw [hcr] at h
    case none => cases h
    injection h with h
    subst h
    simp

lemma addEvents_cons_none {tz : String} {fresh : Nat → String} {i : Nat} {e : EventDict}
    {rest : List EventDict} (h : ICSGenerator._create_event tz (fresh i) e = none) :
    ICSGenerator.addEvents tz fresh i (e :: rest) = ICSGenerator.addEvents tz fresh (i + 1) rest := by
  simp [ICSGenerator.addEvents, h]

lemma addEvents_cons_some {tz : String} {fresh : Nat → String} {i : Nat} {e : EventDict}
    {rest : List EventDict} {v : ICalEvent}
    (h : ICSGenerator._create_event tz (fresh i) e = some v) :
    ICSGenerator.addEvents tz fresh i (e :: rest)
      = v :: ICSGenerator.addEvents tz fresh (i + 1) rest := by
  simp [ICSGenerator.addEvents, h]

/-! ## Claim theorems for the event compiler -/

/-- C1 (counterexample): a single-event list whose event has a malformed
`startDateTime` compiles to a calendar document with zero VEVENT blocks, not
one — the claim's "exactly one VEVENT for every non-empty single-event
list" fails at this input. -/
theorem single_malformed_event_yields_no_vevent :
    (ICSGenerator.generate_ics "America/Toronto" (fun n => toString n) [evBadTimestamp]
        "Course Calendar").map (fun doc => doc.events.length) = Except.ok 0
      ∧ (Except.ok 0 : Except String Nat) ≠ Except.ok 1 := by
  constructor
  · rfl
  · simp

/-- C1 (amended): for every single-event list whose event encodes
successfully (its required keys present and timestamps parseable, so
`_create_event` does not raise), compiling yields exactly one VEVENT block,
and that block carries an RRULE iff the event has a `recurrence` and a
VALARM iff it does not. -/
theorem single_wellformed_event_yields_one_vevent :
    ∀ (tz name : String) (fresh : Nat → String) (e : EventDict) (v : ICalEvent),
      ICSGenerator._create_event tz (fresh 0) e = some v →
      ICSGenerator.generate_ics tz fresh [e] name
          = Except.ok ⟨"-//Course Outline to Calendar//EN", "2.0", name, tz, [v]⟩
        ∧ (v.rrule.isSome = e.recurrence.isSome)
        ∧ (v.alarms ≠ [] ↔ e.recurrence = none) := by
  intro tz name fresh e v h
  rcases create_event_rrule_alarms h with ⟨h1, h2⟩
  refine ⟨?_, h1, ?_⟩
  · unfold ICSGenerator.generate_ics
    rw [if_neg (by simp)]
    rw [addEvents_cons_some h]
    rfl
  · rw [h2]
    cases hr : e.recurrence <;> simp

/-- Witness for the amended C1 at the recurring event `evRecurring`. -/
theorem single_wellformed_event_yields_one_vevent_witness :
    ICSGenerator.generate_ics "America/Toronto" (fun _ => "u0") [evRecurring] "Course Calendar"
        = Except.ok ⟨"-//Course Outline to Calendar//EN", "2.0", "Course Calendar",
            "America/Toronto", [evRecurringICal]⟩
      ∧ (evRecurringICal.rrule.isSome = evRecurring.recurrence.isSome)
      ∧ (evRecurringICal.alarms ≠ [] ↔ evRecurring.recurrence = none) :=
  single_wellformed_event_yields_one_vevent "America/Toronto" "Course Calendar"
    (fun _ => "u0") evRecurring evRecurringICal (by decide)

/-- C2: compiling an empty event list raises the usage error
`ValueError("Cannot generate calendar from empty events list")`; and in a
two-event list where one event's encoding raises (e.g. a malformed
timestamp) and the other encodes, the bad event is skipped — whichever
position it is in — and the document contains exactly the one VEVENT of the
well-formed event. -/
theorem empty_list_rejected_and_bad_event_skipped :
    (∀ (tz name : String) (fresh : Nat → String),
      ICSGenerator.generate_ics tz fresh [] name
        = Except.error "Cannot generate calendar from empty events list")
    ∧ (∀ (tz name : String) (fresh : Nat → String) (e₁ e₂ : EventDict) (v : ICalEvent),
        ICSGenerator._create_event tz (fresh 0) e₁ = none →
        ICSGenerator._create_event tz (fresh 1) e₂ = some v →
        ICSGenerator.generate_ics tz fresh [e₁, e₂] name
          = Except.ok ⟨"-//Course Outline to Calendar//EN", "2.0", name, tz, [v]⟩)
    ∧ (∀ (tz name : String) (fresh : Nat → String) (e₁ e₂ : EventDict) (v : ICalEvent),
        ICSGenerator._create_event tz (fresh 0) e₁ = some v →
        ICSGenerator._create_event tz (fresh 1) e₂ = none →
        ICSGenerator.generate_ics tz fresh [e₁, e₂] name
          = Except.ok ⟨"-//Course Outline to Calendar//EN", "2.0", name, tz, [v]⟩) := by
  refine ⟨fun tz name fresh => rfl, ?_, ?_⟩
  · intro tz name fresh e₁ e₂ v h1 h2
    unfold ICSGenerator.generate_ics
    rw [if_neg (by simp)]
    rw [addEvents_cons_none h1, addEvents_cons_some h2]
    rfl
  · intro tz name fresh e₁ e₂ v h1 h2
    unfold ICSGenerator.generate_ics
    rw [if_neg (by simp)]
    rw [addEvents_cons_some h1, addEvents_cons_none h2]
    rfl

/-- Witness for C2: the empty list is rejected, and the pair
(malformed-timestamp event, valid event) compiles to exactly one VEVENT. -/
theorem empty_list_rejected_and_bad_event_skipped_witness :
    ICSGenerator.generate_ics "America/Toronto" (fun _ => "u1") [] "Course Calendar"
        = Except.error "Cannot generate calendar from empty events list"
      ∧ ICSGenerator.generate_ics "America/Toronto" (fun _ => "u1") [evBadTimestamp, evValid]
          "Course Calendar"
        = Except.ok ⟨"-//Course Outline to Calendar//EN", "2.0", "Course Calendar",
            "America/Toronto", [evValidICal]⟩ :=
  ⟨empty_list_rejected_and_bad_event_skipped.1 "America/Toronto" "Course Calendar" (fun _ => "u1"),
   empty_list_rejected_and_bad_event_skipped.2.1 "America/Toronto" "Course Calendar"
     (fun _ => "u1") evBadTimestamp evValid evValidICal (by decide) (by decide)⟩

/-- C8 (code evaluated at the failing input): for the default
`CalendarEvent.model_dump()` shape — `id` key present and bound to `None` —
`event_data.get('id', self._generate_uid(...))` returns `None`, so the
emitted UID is the null value, not a freshly generated identifier; the
generated UID is used only when the `id` key is absent, and a string `id`
is reused. -/
theorem uid_is_null_for_default_model_shape :
    ((ICSGenerator._create_event "America/Toronto" "3f1c9a34-7c2d-4e21-9b5a-0d8f6e4c2a11"
        evDefaultModelShape).map ICalEvent.uid = some none)
      ∧ ((ICSGenerator._create_event "America/Toronto" "3f1c9a34-7c2d-4e21-9b5a-0d8f6e4c2a11"
          evValid).map ICalEvent.uid = some (some "3f1c9a34-7c2d-4e21-9b5a-0d8f6e4c2a11"))
      ∧ ((ICSGenerator._create_event "America/Toronto" "3f1c9a34-7c2d-4e21-9b5a-0d8f6e4c2a11"
          evWithId).map ICalEvent.uid = some (some "evt-123")) := by
  refine ⟨rfl, rfl, rfl⟩

/-- C4 (code evaluated at the failing input): `office_hours` is a declared
`EventType` enumeration value of the shared model, yet it is missing from
the validator's `VALID_EVENT_TYPES`, so a modern-shape event of type
`office_hours` receives a type error and is marked invalid. -/
theorem office_hours_type_rejected_by_validator :
    "office_hours" ∈ eventTypeValues
      ∧ "office_hours" ∉ EventValidator.VALID_EVENT_TYPES
      ∧ ("type", EventValidator.invalidTypeMsg)
          ∈ (EventValidator.validate_event today0 evOfficeHours).errors
      ∧ (EventValidator.validate_event today0 evOfficeHours).is_valid = false := by
  refine ⟨by decide, by decide, by decide, by decide⟩

/-! ## Helper lemmas about the validator's error segments -/

lemma mem_requiredFieldErrors {e : EventDict} {p : String × String}
    (h : p ∈ EventValidator.requiredFieldErrors e) :
    (p = ("title", "Title is required") ∧ falsyOpt e.title = true)
      ∨ (p = ("startDateTime", "Startdatetime is required") ∧ falsyOpt e.startDateTime = true)
      ∨ (p = ("endDateTime", "Enddatetime is required") ∧ falsyOpt e.endDateTime = true)
      ∨ (p = ("location", "Location is required") ∧ falsyOpt e.location = true) := by
  unfold EventValidator.requiredFieldErrors at h
  simp only [List.mem_append] at h
  rcases h with ((h | h) | h) | h <;> (repeat' split at h) <;> simp_all

lemma mem_titleErrors {e : EventDict} {p : String × String}
    (h : p ∈ EventValidator.titleErrors e) :
    p = ("title", "Title must be at least 3 characters") := by
  unfold EventValidator.titleErrors at h
  cases ht : e.title <;> rw [ht] at h <;> dsimp only at h
  · simp at h
  · split at h <;> simp_all

lemma mem_startErrors {e : EventDict} {p : String × String}
    (h : p ∈ EventValidator.startErrors e) :
    p = ("startDateTime", "Start datetime must be in ISO 8601 format (YYYY-MM-DDTHH:MM:SS)") := by
  unfold EventValidator.startErrors at h
  cases hs : e.startDateTime <;> rw [hs] at h <;> dsimp only at h
  · simp at h
  · split at h <;> simp_all

lemma mem_endErrors {e : EventDict} {p : String × String}
    (h : p ∈ EventValidator.endErrors e) :
    p = ("endDateTime", "End datetime must be after start datetime")
      ∨ p = ("endDateTime", "End datetime must be in ISO 8601 format (YYYY-MM-DDTHH:MM:SS)") := by
  unfold EventValidator.endErrors at h
  cases hs : e.endDateTime <;> rw [hs] at h <;> dsimp only at h
  · simp at h
  · (repeat' split at h) <;> simp_all

lemma mem_locationErrors {e : EventDict} {p : String × String}
    (h : p ∈ EventValidator.locationErrors e) :
    p = ("location", "Location is required") ∧ falsyOpt e.location = true := by
  unfold EventValidator.locationErrors at h
  split at h <;> simp_all

lemma mem_typeErrors {e : EventDict} {p : String × String}
    (h : p ∈ EventValidator.typeErrors e) :
    p = ("type", EventValidator.invalidTypeMsg) := by
  unfold EventValidator.typeErrors at h
  cases ht : e.type <;> rw [ht] at h <;> dsimp only at h
  · simp at h
  · split at h <;> simp_all

lemma mem_recurrenceErrors {ps : Option DateTime} {r : Recurrence} {p : String × String}
    (h : p ∈ EventValidator.recurrenceErrors ps r) :
    p = ("recurrence.frequency", "Invalid frequency. Must be one of: daily, weekly, monthly")
      ∨ p = ("recurrence.interval", "Interval must be a positive integer")
      ∨ p = ("recurrence.endDate", "End date must be in YYYY-MM-DD format")
      ∨ p = ("recurrence.endDate", "End date must be after start date")
      ∨ p = ("recurrence.endDate", "Invalid end date value")
      ∨ p = ("recurrence.daysOfWeek", "Days of week must be integers between 0 and 6") := by
  unfold EventValidator.recurrenceErrors at h
  simp only [List.mem_append] at h
  rcases h with ((h | h) | h) | h <;> (repeat' split at h) <;> simp_all

/-- The exhaustive shape of the modern-path validator's error entries. -/
lemma validate_event_errors_cases {today : Date} {e : EventDict} {p : String × String}
    (h : p ∈ (EventValidator.validate_event today e).errors) :
    p ∈ EventValidator.requiredFieldErrors e
      ∨ p ∈ EventValidator.titleErrors e
      ∨ p ∈ EventValidator.startErrors e
      ∨ p ∈ EventValidator.endErrors e
      ∨ p ∈ EventValidator.locationErrors e
      ∨ p ∈ EventValidator.typeErrors e
      ∨ (∃ r, e.recurrence = some r
          ∧ p ∈ EventValidator.recurrenceErrors (EventValidator.parsedStart e) r) := by
  unfold EventValidator.validate_event at h
  dsimp only at h
  simp only [List.mem_append] at h
  rcases h with ((((((hseg | hseg) | hseg) | hseg) | hseg) | hseg) | hseg)
  · exact Or.inl hseg
  · exact Or.inr (Or.inl hseg)
  · exact Or.inr (Or.inr (Or.inl hseg))
  · exact Or.inr (Or.inr (Or.inr (Or.inl hseg)))
  · exact Or.inr (Or.inr (Or.inr (Or.inr (Or.inl hseg))))
  · exact Or.inr (Or.inr (Or.inr (Or.inr (Or.inr (Or.inl hseg)))))
  · rcases Option.eq_none_or_eq_some e.recurrence with hrec | ⟨r, hrec⟩ <;> rw [hrec] at hseg
    · simp at hseg
    · exact Or.inr (Or.inr (Or.inr (Or.inr (Or.inr (Or.inr ⟨r, hrec, hseg⟩)))))

/-! ## Claim theorems for the validator -/

/-- C3: for every modern-shape event whose `startDateTime` and
`endDateTime` both parse as ISO-8601 timestamps, the validator reports an
error on the `endDateTime` field iff `endDateTime <= startDateTime`, and
reports no error on that field otherwise. -/
theorem end_not_after_start_flagged_exactly :
    ∀ (today : Date) (e : EventDict) (s t : String) (sd ed : DateTime),
      e.startDateTime = some s → e.endDateTime = some t →
      pyFromIso (pyReplaceZ s) = some sd → pyFromIso (pyReplaceZ t) = some ed →
      ((∃ m, ("endDateTime", m) ∈ (EventValidator.validate_event today e).errors)
        ↔ ed.pyLe sd = true) := by
  intro today e s t sd ed hs ht hps hpt
  have hpss : EventValidator.parsedStart e = some sd := by
    unfold EventValidator.parsedStart
    rw [hs]
    simpa using hps
  have htne : t ≠ "" := by
    intro hteq
    rw [hteq] at hpt
    have hz : pyFromIso (pyReplaceZ "") = none := rfl
    rw [hz] at hpt
    cases hpt
  have hfalsyEnd : falsyOpt e.endDateTime = false := by
    rw [ht]
    simp [falsyOpt, htne]
  have hend : EventValidator.endErrors e
      = if ed.pyLe sd then [("endDateTime", "End datetime must be after start datetime")]
        else [] := by
    unfold EventValidator.endErrors
    rw [ht]
    dsimp only
    rw [hpt]
    dsimp only
    rw [hpss]
  constructor
  · rintro ⟨m, hm⟩
    rcases validate_event_errors_cases hm with hc | hc | hc | hc | hc | hc | ⟨r, hr, hc⟩
    · rcases mem_requiredFieldErrors hc with ⟨hp, _⟩ | ⟨hp, _⟩ | ⟨hp, hf⟩ | ⟨hp, _⟩
      · simp at hp
      · simp at hp
      · simp [hfalsyEnd] at hf
      · simp at hp
    · have := mem_titleErrors hc; simp at this
    · have := mem_startErrors hc; simp at this
    · rw [hend] at hc
      by_cases hb : ed.pyLe sd = true
      · exact hb
      · rw [if_neg hb] at hc; simp at hc
    · have := (mem_locationErrors hc).1; simp at this
    · have := mem_typeErrors hc; simp at this
    · rcases mem_recurrenceErrors hc with hp | hp | hp | hp | hp | hp <;> simp at hp
  · intro hb
    refine ⟨"End datetime must be after start datetime", ?_⟩
    unfold EventValidator.validate_event
    dsimp only
    refine List.mem_append.mpr (Or.inl ?_)
    refine List.mem_append.mpr (Or.inl ?_)
    refine List.mem_append.mpr (Or.inl ?_)
    refine List.mem_append.mpr (Or.inr ?_)
    rw [hend, if_pos hb]
    simp

/-- Witness for C3 at an event with `end == start` (error present since
`end <= start`). -/
theorem end_not_after_start_flagged_exactly_witness :
    (∃ m, ("endDateTime", m) ∈ (EventValidator.validate_event today0 evEndEqStart).errors)
      ↔ (⟨2026, 1, 20, 14, 0, 0⟩ : DateTime).pyLe ⟨2026, 1, 20, 14, 0, 0⟩ = true :=
  end_not_after_start_flagged_exactly today0 evEndEqStart
    "2026-01-20T14:00:00" "2026-01-20T14:00:00"
    ⟨2026, 1, 20, 14, 0, 0⟩ ⟨2026, 1, 20, 14, 0, 0⟩ rfl rfl (by decide) (by decide)

/-- C7: for every modern-shape event, the validator reports a
"<Field> is required" error exactly for each of `title`, `startDateTime`,
`endDateTime` and `location` that is missing or empty, and no other field is
required (every required-style error is on one of those four fields). -/
theorem modern_shape_requires_exactly_four_fields :
    ∀ (today : Date) (e : EventDict), e.startDateTime.isSome = true →
      ((falsyOpt e.title = true
          ↔ ("title", "Title is required") ∈ (EventValidator.validate_event today e).errors)
        ∧ (falsyOpt e.startDateTime = true
          ↔ ("startDateTime", "Startdatetime is required")
              ∈ (EventValidator.validate_event today e).errors)
        ∧ (falsyOpt e.endDateTime = true
          ↔ ("endDateTime", "Enddatetime is required")
              ∈ (EventValidator.validate_event today e).errors)
        ∧ (falsyOpt e.location = true
          ↔ ("location", "Location is required")
              ∈ (EventValidator.validate_event today e).errors))
      ∧ (∀ p ∈ (EventValidator.validate_event today e).errors,
          p.2 = "Title is required" ∨ p.2 = "Startdatetime is required"
            ∨ p.2 = "Enddatetime is required" ∨ p.2 = "Location is required" →
          p.1 ∈ EventValidator.requiredModernFields) := by
  intro today e _
  have hshape : ∀ p : String × String, p ∈ (EventValidator.validate_event today e).errors →
      (p = ("title", "Title is required") ∧ falsyOpt e.title = true)
      ∨ (p = ("startDateTime", "Startdatetime is required") ∧ falsyOpt e.startDateTime = true)
      ∨ (p = ("endDateTime", "Enddatetime is required") ∧ falsyOpt e.endDateTime = true)
      ∨ (p = ("location", "Location is required") ∧ falsyOpt e.location = true)
      ∨ p = ("title", "Title must be at least 3 characters")
      ∨ p = ("startDateTime", "Start datetime must be in ISO 8601 format (YYYY-MM-DDTHH:MM:SS)")
      ∨ p = ("endDateTime", "End datetime must be after start datetime")
      ∨ p = ("endDateTime", "End datetime must be in ISO 8601 format (YYYY-MM-DDTHH:MM:SS)")
      ∨ p = ("type", EventValidator.invalidTypeMsg)
      ∨ p = ("recurrence.frequency", "Invalid frequency. Must be one of: daily, weekly, monthly")
      ∨ p = ("recurrence.interval", "Interval must be a positive integer")
      ∨ p = ("recurrence.endDate", "End date must be in YYYY-MM-DD format")
      ∨ p = ("recurrence.endDate", "End date must be after start date")
      ∨ p = ("recurrence.endDate", "Invalid end date value")
      ∨ p = ("recurrence.daysOfWeek", "Days of week must be integers between 0 and 6") := by
    intro p hm
    rcases validate_event_errors_cases hm with hc | hc | hc | hc | hc | hc | ⟨r, hr, hc⟩
    · rcases mem_requiredFieldErrors hc with h' | h' | h' | h'
      · exact Or.inl h'
      · exact Or.inr (Or.inl h')
      · exact Or.inr (Or.inr (Or.inl h'))
      · exact Or.inr (Or.inr (Or.inr (Or.inl h')))
    · exact Or.inr (Or.inr (Or.inr (Or.inr (Or.inl (mem_titleErrors hc)))))
    · exact Or.inr (Or.inr (Or.inr (Or.inr (Or.inr (Or.inl (mem_startErrors hc))))))
    · rcases mem_endErrors hc with h' | h'
      · exact Or.inr (Or.inr (Or.inr (Or.inr (Or.inr (Or.inr (Or.inl h'))))))
      · exact Or.inr (Or.inr (Or.inr (Or.inr (Or.inr (Or.inr (Or.inr (Or.inl h')))))))
    · exact Or.inr (Or.inr (Or.inr (Or.inl (mem_locationErrors hc))))
    · exact Or.inr (Or.inr (Or.inr (Or.inr (Or.inr (Or.inr (Or.inr (Or.inr
        (Or.inl (mem_typeErrors hc)))))))))
    · rcases mem_recurrenceErrors hc with h' | h' | h' | h' | h' | h'
      · exact Or.inr (Or.inr (Or.inr (Or.inr (Or.inr (Or.inr (Or.inr (Or.inr (Or.inr
          (Or.inl h')))))))))
      · exact Or.inr (Or.inr (Or.inr (Or.inr (Or.inr (Or.inr (Or.inr (Or.inr (Or.inr
          (Or.inr (Or.inl h'))))))))))
      · exact Or.inr (Or.inr (Or.inr (Or.inr (Or.inr (Or.inr (Or.inr (Or.inr (Or.inr
          (Or.inr (Or.inr (Or.inl h')))))))))))
      · exact Or.inr (Or.inr (Or.inr (Or.inr (Or.inr (Or.inr (Or.inr (Or.inr (Or.inr
          (Or.inr (Or.inr (Or.inr (Or.inl h'))))))))))))
      · exact Or.inr (Or.inr (Or.inr (Or.inr (Or.inr (Or.inr (Or.inr (Or.inr (Or.inr
          (Or.inr (Or.inr (Or.inr (Or.inr (Or.inl h')))))))))))))
      · exact Or.inr (Or.inr (Or.inr (Or.inr (Or.inr (Or.inr (Or.inr (Or.inr (Or.inr
          (Or.inr (Or.inr (Or.inr (Or.inr (Or.inr h')))))))))))))
  have memA : ∀ q : String × String, q ∈ EventValidator.requiredFieldErrors e →
      q ∈ (EventValidator.validate_event today e).errors := by
    intro q hq
    unfold EventValidator.validate_event
    dsimp only
    exact List.mem_append.mpr (Or.inl (List.mem_append.mpr (Or.inl (List.mem_append.mpr
      (Or.inl (List.mem_append.mpr (Or.inl (List.mem_append.mpr (Or.inl
        (List.mem_append.mpr (Or.inl hq)))))))))))
  refine ⟨⟨⟨?_, ?_⟩, ⟨?_, ?_⟩, ⟨?_, ?_⟩, ⟨?_, ?_⟩⟩, ?_⟩
  · intro hf
    exact memA _ (by simp [EventValidator.requiredFieldErrors, hf])
  · intro hm
    rcases hshape _ hm with ⟨_, hf⟩ | ⟨hp, _⟩ | ⟨hp, _⟩ | ⟨hp, _⟩ | hp | hp | hp | hp | hp
        | hp | hp | hp | hp | hp | hp <;> first | exact hf | simp at hp
  · intro hf
    exact memA _ (by simp [EventValidator.requiredFieldErrors, hf])
  · intro hm
    rcases hshape _ hm with ⟨hp, _⟩ | ⟨_, hf⟩ | ⟨hp, _⟩ | ⟨hp, _⟩ | hp | hp | hp | hp | hp
        | hp | hp | hp | hp | hp | hp <;> first | exact hf | simp at hp
  · intro hf
    exact memA _ (by simp [EventValidator.requiredFieldErrors, hf])
  · intro hm
    rcases hshape _ hm with ⟨hp, _⟩ | ⟨hp, _⟩ | ⟨_, hf⟩ | ⟨hp, _⟩ | hp | hp | hp | hp | hp
        | hp | hp | hp | hp | hp | hp <;> first | exact hf | simp at hp
  · intro hf
    exact memA _ (by simp [EventValidator.requiredFieldErrors, hf])
  · intro hm
    rcases hshape _ hm with ⟨hp, _⟩ | ⟨hp, _⟩ | ⟨hp, _⟩ | ⟨_, hf⟩ | hp | hp | hp | hp | hp
        | hp | hp | hp | hp | hp | hp <;> first | exact hf | simp at hp
  · intro p hm hmsg
    rcases hshape _ hm with ⟨hp, _⟩ | ⟨hp, _⟩ | ⟨hp, _⟩ | ⟨hp, _⟩ | hp | hp | hp | hp | hp
        | hp | hp | hp | hp | hp | hp <;>
      subst hp <;>
      simp_all [EventValidator.requiredModernFields, EventValidator.invalidTypeMsg]

/-- Witness for C7 at `evMissingFields` (title missing, location empty). -/
theorem modern_shape_requires_exactly_four_fields_witness :
    (("title", "Title is required") ∈ (EventValidator.validate_event today0 evMissingFields).errors)
      ∧ (("location", "Location is required")
          ∈ (EventValidator.validate_event today0 evMissingFields).errors)
      ∧ ("recurrence.frequency", "Title is required")
          ∉ (EventValidator.validate_event today0 evMissingFields).errors :=
  ⟨((modern_shape_requires_exactly_four_fields today0 evMissingFields rfl).1.1).mp (by decide),
   ((modern_shape_requires_exactly_four_fields today0 evMissingFields rfl).1.2.2.2).mp (by decide),
   fun hm => by
     have := (modern_shape_requires_exactly_four_fields today0 evMissingFields rfl).2 _ hm
       (Or.inl rfl)
     simp [EventValidator.requiredModernFields] at this⟩

/-! ## Helper lemmas about deduplication -/

namespace EventValidator

lemma dedupGo_sublist (seen : List (String × Option String × Option String × Option String))
    (es : List EventDict) : List.Sublist (dedupGo seen es) es := by
  induction es generalizing seen with
  | nil => simp [dedupGo]
  | cons e rest ih =>
    unfold dedupGo
    by_cases h : dedupSig e ∈ seen
    · rw [if_pos h]
      exact List.Sublist.cons e (ih seen)
    · rw [if_neg h]
      exact List.Sublist.cons₂ e (ih (dedupSig e :: seen))

lemma dedupGo_idem (seen : List (String × Option String × Option String × Option String))
    (es : List EventDict) : dedupGo seen (dedupGo seen es) = dedupGo seen es := by
  induction es generalizing seen with
  | nil => simp [dedupGo]
  | cons e rest ih =>
    by_cases h : dedupSig e ∈ seen
    · rw [dedupGo, if_pos h]
      exact ih seen
    · rw [dedupGo, if_neg h]
      rw [dedupGo, if_neg h]
      rw [ih (dedupSig e :: seen)]

lemma dedupGo_keeps_first (seen : List (String × Option String × Option String × Option String))
    (pre : List EventDict) (e : EventDict) (post : List EventDict)
    (hseen : dedupSig e ∉ seen) (hpre : dedupSig e ∉ pre.map dedupSig) :
    e ∈ dedupGo seen (pre ++ e :: post) := by
  induction pre generalizing seen with
  | nil =>
    rw [List.nil_append, dedupGo, if_neg hseen]
    exact List.mem_cons_self e _
  | cons p pre' ih =>
    simp only [List.map_cons, List.mem_cons] at hpre
    push_neg at hpre
    rw [List.cons_append, dedupGo]
    by_cases hp : dedupSig p ∈ seen
    · rw [if_pos hp]
      exact ih seen hseen hpre.2
    · rw [if_neg hp]
      refine List.mem_cons_of_mem p ?_
      refine ih (dedupSig p :: seen) ?_ hpre.2
      intro hmem
      rcases List.mem_cons.mp hmem with h1 | h1
      · exact hpre.1 h1
      · exact hseen h1

lemma dedupGo_drops_later (seen : List (String × Option String × Option String × Option String))
    (pre : List EventDict) (e : EventDict) (post : List EventDict)
    (h : dedupSig e ∈ seen ∨ dedupSig e ∈ pre.map dedupSig) :
    dedupGo seen (pre ++ e :: post) = dedupGo seen (pre ++ post) := by
  induction pre generalizing seen with
  | nil =>
    rcases h with h | h
    · rw [List.nil_append, dedupGo, if_pos h, List.nil_append]
    · simp at h
  | cons p pre' ih =>
    simp only [List.map_cons, List.mem_cons] at h
    rw [List.cons_append, List.cons_append, dedupGo, dedupGo]
    by_cases hp : dedupSig p ∈ seen
    · rw [if_pos hp, if_pos hp]
      refine ih seen ?_
      rcases h with h | h | h
      · exact Or.inl h
      · exact Or.inl (h ▸ hp)
      · exact Or.inr h
    · rw [if_neg hp, if_neg hp]
      congr 1
      refine ih (dedupSig p :: seen) ?_
      rcases h with h | h | h
      · exact Or.inl (List.mem_cons_of_mem _ h)
      · exact Or.inl (h ▸ List.mem_cons_self _ _)
      · exact Or.inr h

lemma dedupTupleGo_reports (seen : List (String × Option String × Option String × Option String))
    (pre : List EventDict) (e : EventDict) (post : List EventDict)
    (h : oldSig e ∈ seen ∨ oldSig e ∈ pre.map oldSig) :
    e ∈ (dedupTupleGo seen (pre ++ e :: post)).2 := by
  induction pre generalizing seen with
  | nil =>
    rcases h with h | h
    · rw [List.nil_append, dedupTupleGo]
      rw [if_pos h]
      exact List.mem_cons_self e _
    · simp at h
  | cons p pre' ih =>
    simp only [List.map_cons, List.mem_cons] at h
    rw [List.cons_append, dedupTupleGo]
    by_cases hp : oldSig p ∈ seen
    · rw [if_pos hp]
      refine List.mem_cons_of_mem p ?_
      refine ih seen ?_
      rcases h with h | h | h
      · exact Or.inl h
      · exact Or.inl (h ▸ hp)
      · exact Or.inr h
    · rw [if_neg hp]
      refine ih (oldSig p :: seen) ?_
      rcases h with h | h | h
      · exact Or.inl (List.mem_cons_of_mem _ h)
      · exact Or.inl (h ▸ List.mem_cons_self _ _)
      · exact Or.inr h

end EventValidator

/-- C5: deduplication keeps the first occurrence of each signature
(lower-cased trimmed title, start timestamp, end timestamp, type) and drops
later occurrences — the tuple-returning variant reports them in its
`duplicates` list; it is order-preserving (its output is a sublist of its
input), never longer than its input, and idempotent; in particular two
events with identical signature but different descriptions deduplicate to
the first alone, the second reported as a duplicate. -/
theorem deduplication_keeps_first_and_is_idempotent :
    (∀ es : List EventDict, List.Sublist (EventValidator.deduplicate es) es)
      ∧ (∀ es : List EventDict, (EventValidator.deduplicate es).length ≤ es.length)
      ∧ (∀ es : List EventDict,
          EventValidator.deduplicate (EventValidator.deduplicate es)
            = EventValidator.deduplicate es)
      ∧ (∀ (pre : List EventDict) (e : EventDict) (post : List EventDict),
          EventValidator.dedupSig e ∉ pre.map EventValidator.dedupSig →
          e ∈ EventValidator.deduplicate (pre ++ e :: post))
      ∧ (∀ (pre : List EventDict) (e : EventDict) (post : List EventDict),
          EventValidator.dedupSig e ∈ pre.map EventValidator.dedupSig →
          EventValidator.deduplicate (pre ++ e :: post)
            = EventValidator.deduplicate (pre ++ post))
      ∧ (∀ (pre : List EventDict) (e : EventDict) (post : List EventDict),
          EventValidator.oldSig e ∈ pre.map EventValidator.oldSig →
          e ∈ (EventValidator.deduplicate_with_duplicates (pre ++ e :: post)).2)
      ∧ (EventValidator.deduplicate [evDupA, evDupB] = [evDupA]
          ∧ EventValidator.deduplicate_with_duplicates [evDupA, evDupB] = ([evDupA], [evDupB])) := by
  refine ⟨fun es => EventValidator.dedupGo_sublist [] es,
    fun es => (EventValidator.dedupGo_sublist [] es).length_le,
    fun es => EventValidator.dedupGo_idem [] es,
    fun pre e post hpre => EventValidator.dedupGo_keeps_first [] pre e post (by simp) hpre,
    fun pre e post hpre => EventValidator.dedupGo_drops_later [] pre e post (Or.inr hpre),
    fun pre e post hpre => EventValidator.dedupTupleGo_reports [] pre e post (Or.inr hpre),
    by decide, by decide⟩

/-- Witness for C5 at the concrete duplicate pair `evDupA`, `evDupB`
(identical signature, different descriptions). -/
theorem deduplication_keeps_first_and_is_idempotent_witness :
    evDupA ∈ EventValidator.deduplicate ([] ++ evDupA :: [evDupB])
      ∧ evDupB ∈ (EventValidator.deduplicate_with_duplicates ([evDupA] ++ evDupB :: [])).2 :=
  ⟨deduplication_keeps_first_and_is_idempotent.2.2.2.1 [] evDupA [evDupB] (by decide),
   deduplication_keeps_first_and_is_idempotent.2.2.2.2.2.1 [evDupA] evDupB [] (by decide)⟩

/-! ## Claim theorem for session flattening -/

lemma foldl_add_course (m : MultiCourseCalendar) (cs : List CourseCalendar) :
    (cs.foldl MultiCourseCalendar.add_course m).courses = m.courses ++ cs := by
  induction cs generalizing m with
  | nil => simp
  | cons c cs' ih =>
    rw [List.foldl_cons, ih]
    simp [MultiCourseCalendar.add_course]

/-- C9: flattening a session yields the concatenation, in course-addition
order, of each course's events in their internal order; an existing session
is flattened exactly this way by the storage layer; and a session of two
courses with 3 and 2 events flattens to the ordered 5-event sequence with
course-1 events first. -/
theorem session_flattening_preserves_order :
    (∀ cs : List CourseCalendar,
        (cs.foldl MultiCourseCalendar.add_course ⟨[]⟩).get_all_events
          = (cs.map CourseCalendar.events).flatten)
      ∧ (∀ (sessions : String → Option MultiCourseCalendar) (sid : String)
            (m : MultiCourseCalendar),
          sessions sid = some m →
          EventStorage.get_all_events_in_session sessions sid = m.get_all_events)
      ∧ (((MultiCourseCalendar.mk []).add_course course1 |>.add_course course2).get_all_events
            = course1.events ++ course2.events
          ∧ ((MultiCourseCalendar.mk []).add_course course1
              |>.add_course course2).get_all_events = [ev1, ev2, ev3, ev4, ev5]
          ∧ (((MultiCourseCalendar.mk []).add_course course1
              |>.add_course course2).get_all_events).length = 5) := by
  refine ⟨?_, ?_, by decide, by decide, by decide⟩
  · intro cs
    unfold MultiCourseCalendar.get_all_events
    rw [foldl_add_course]
    simp
  · intro sessions sid m hm
    unfold EventStorage.get_all_events_in_session
    rw [hm]

/-- Witness for C9: a concrete session store containing the two-course
session flattens to the five events in order. -/
theorem session_flattening_preserves_order_witness :
    EventStorage.get_all_events_in_session
        (fun sid => if sid = "session-ab12cd34ef56" then
          some ⟨[course1, course2]⟩ else none) "session-ab12cd34ef56"
      = MultiCourseCalendar.get_all_events ⟨[course1, course2]⟩ :=
  session_flattening_preserves_order.2.1
    (fun sid => if sid = "session-ab12cd34ef56" then some ⟨[course1, course2]⟩ else none)
    "session-ab12cd34ef56" ⟨[course1, course2]⟩ (by decide)
